import Mathlib

/-!
Shallow embedding of the Adaptive-Learning-Coach client
(src/App.tsx, src/services/geminiService.ts, the types module) in Lean 4.

Modelling conventions:
* TypeScript interfaces become structures; optional fields become Option.
* The generative-model transport (network + JSON parse) is abstracted as an
  explicit parameter of type Except String _: an .error stands for any
  network/parse failure thrown inside the try block, an .ok carries the
  parsed response.  Each gateway function is the pure remainder of the
  TypeScript function after that boundary.
* JavaScript Record objects with numeric keys are modelled as association
  lists with unique keys (a JS object cannot hold the same key twice).
* Machine integers written through DataView are modelled as Nat with
  explicit truncation (% 256, and little-endian byte decomposition
  matching setUint16/setUint32 semantics).
* React setState updater compositions are modelled as pure functions
  AppState -> AppState; Date.now() becomes an explicit now : Nat argument.
-/

/-- App navigation steps (types module, AppStep enum). -/
inductive AppStep where
  | AUTH
  | DASHBOARD
  | INPUT
  | PILLARS
  | PATHS
  | CURRICULUM
deriving DecidableEq

/-- Chat message role ('user' | 'model'). -/
inductive Role where
  | user
  | model
deriving DecidableEq

/-- Sub-lesson feedback value ('helpful' | 'unhelpful'). -/
inductive Feedback where
  | helpful
  | unhelpful
deriving DecidableEq

/-- Lesson path difficulty enum. -/
inductive Difficulty where
  | Beginner
  | Intermediate
  | Advanced
deriving DecidableEq

/-- A raw pillar item as parsed from the model response, before the client
reassigns ids (geminiService.ts generatePillars, the item given to data.map). -/
structure RawPillar where
  id : Int
  title : String
  description : String
  icon : String
deriving DecidableEq

/-- LearningPillar (types module). -/
structure LearningPillar where
  id : Int
  title : String
  description : String
  icon : String
deriving DecidableEq

/-- LessonPath (types module). -/
structure LessonPath where
  id : Int
  title : String
  description : String
  difficulty : Difficulty
  estimatedTime : String
deriving DecidableEq

/-- CaseStudy (types module). -/
structure CaseStudy where
  title : String
  scenario : String
  outcome : String
deriving DecidableEq

/-- SubLesson (types module). -/
structure SubLesson where
  title : String
  content : String
  generalConcepts : String
  useCases : List String
  caseStudies : List String
  references : List String
  «example» : String
  visualDescription : String
  actionItem : String
deriving DecidableEq

/-- Curriculum (types module); audioData is the optional lazily-filled
Base64 PCM blob. -/
structure Curriculum where
  pathTitle : String
  introduction : String
  objectives : List String
  keyConcepts : List String
  realWorldUseCases : List String
  caseStudy : CaseStudy
  subLessons : List SubLesson
  resources : List String
  audioData : Option String := none
deriving DecidableEq

/-- ChatMessage (types module); the optional isThinking flag is modelled as a
Bool defaulting to false (undefined is falsy in the filters that read it). -/
structure ChatMessage where
  id : String
  role : Role
  text : String
  timestamp : Nat
  isThinking : Bool := false
deriving DecidableEq

/-- User (types module). -/
structure User where
  id : String
  name : String
  email : Option String := none
  photoURL : Option String := none
  joinedAt : Nat
deriving DecidableEq

/-- SavedCourse (types module).  subLessonFeedback is a JS Record with
numeric keys, modelled as an association list with unique keys. -/
structure SavedCourse where
  id : String
  subject : String
  pillar : LearningPillar
  path : LessonPath
  curriculum : Curriculum
  completedSubLessons : List Nat
  subLessonFeedback : List (Nat × Feedback)
  createdAt : Nat
  lastAccessed : Nat
deriving DecidableEq

/-- AppState (types module): the aggregate root of the client. -/
structure AppState where
  step : AppStep
  user : Option User
  library : List SavedCourse
  activeCourseId : Option String
  subject : String
  selectedPillar : Option LearningPillar
  selectedPath : Option LessonPath
  curriculum : Option Curriculum
  completedSubLessons : List Nat
  subLessonFeedback : List (Nat × Feedback)
  pillars : List LearningPillar
  paths : List LessonPath
  chatHistory : List ChatMessage
  isLoading : Bool
  error : Option String
deriving DecidableEq

/-- INITIAL_STATE (App.tsx). -/
def INITIAL_STATE : AppState :=
  { step := .AUTH
  , user := none
  , library := []
  , activeCourseId := none
  , subject := ""
  , selectedPillar := none
  , selectedPath := none
  , curriculum := none
  , completedSubLessons := []
  , subLessonFeedback := []
  , pillars := []
  , paths := []
  , chatHistory := []
  , isLoading := false
  , error := none }

/-- The fixed 15-tag icon set offered to the model in the generatePillars
response schema enum (geminiService.ts). -/
def iconTags : List String :=
  ["tech", "science", "art", "business", "history", "health", "math", "law",
   "language", "philosophy", "social", "nature", "music", "data", "general"]

/-- The id-reassignment step of generatePillars:
data.map((item, index) => ({ ...item, id: index + 1 })). -/
def assignPillarIds (data : List RawPillar) : List LearningPillar :=
  data.enum.map (fun p =>
    { id := (p.1 : Int) + 1
    , title := p.2.title
    , description := p.2.description
    , icon := p.2.icon })

/-- generatePillars (geminiService.ts).  The subject parameter only feeds the
prompt; outcome is the transport + JSON-parse result.  Any failure inside the
try block is caught and re-raised as the fixed user-facing error. -/
def generatePillars (_subject : String)
    (outcome : Except String (List RawPillar)) :
    Except String (List LearningPillar) :=
  match outcome with
  | .error _ => .error "Failed to generate learning pillars. Please try again."
  | .ok data => .ok (assignPillarIds data)

/-- generateLessonPaths (geminiService.ts): the parsed response is returned
as-is; failures are re-raised as the fixed user-facing error. -/
def generateLessonPaths (_subject _pillar : String)
    (outcome : Except String (List LessonPath)) :
    Except String (List LessonPath) :=
  match outcome with
  | .error _ => .error "Failed to generate lesson paths."
  | .ok paths => .ok paths

/-- generateCurriculum (geminiService.ts): the parsed response is returned
as-is; failures are re-raised as the fixed user-facing error. -/
def generateCurriculum (_subject _pillar _path : String)
    (outcome : Except String Curriculum) :
    Except String Curriculum :=
  match outcome with
  | .error _ => .error "Failed to generate curriculum."
  | .ok c => .ok c

/-- generateModuleAudio (geminiService.ts).  outcome carries the transport
result: .ok (some b64) when inlineData.data is present, .ok none when the
response lacks the audio field.  The missing-field case throws
"No audio data generated." inside the try, and the catch block logs and
re-raises the original error unchanged (throw error), so transport errors
propagate with their original message. -/
def generateModuleAudio (outcome : Except String (Option String)) :
    Except String String :=
  match outcome with
  | .error e => .error e
  | .ok none => .error "No audio data generated."
  | .ok (some b64) => .ok b64

/-- Whether an error message has the user-facing form the spec describes:
it begins with "Failed to generate". -/
def failedToGenerateForm (m : String) : Bool :=
  "Failed to generate".data.isPrefixOf m.data

/-- Little-endian bytes written by DataView.setUint32: the value is stored
mod 2^32, byte k at offset + k being (n / 256^k) % 256. -/
def u32le (n : Nat) : List Nat :=
  [n % 256, n / 256 % 256, n / 65536 % 256, n / 16777216 % 256]

/-- Little-endian bytes written by DataView.setUint16 (value stored mod 2^16). -/
def u16le (n : Nat) : List Nat :=
  [n % 256, n / 256 % 256]

/-- ASCII bytes of 'RIFF' written by writeString (App.tsx). -/
def riffBytes : List Nat := [82, 73, 70, 70]

/-- ASCII bytes of 'WAVE'. -/
def waveBytes : List Nat := [87, 65, 86, 69]

/-- ASCII bytes of 'fmt ' (with the trailing space, code 32). -/
def fmtChunkBytes : List Nat := [102, 109, 116, 32]

/-- ASCII bytes of 'data'. -/
def dataChunkBytes : List Nat := [100, 97, 116, 97]

/-- pcmToWav (App.tsx): wraps decoded Base64 PCM bytes (pcm is the byte list
produced by atob + charCodeAt, each value 0..255) in a 44-byte RIFF/WAVE
header.  The Uint8Array sample write truncates each value mod 256.  Field
layout follows the DataView writes at offsets 0,4,8,12,16,20,22,24,28,32,34,
36,40 and the sample copy starting at 44. -/
def pcmToWav (pcm : List Nat) (sampleRate : Nat := 24000)
    (numChannels : Nat := 1) : List Nat :=
  riffBytes ++ u32le (36 + pcm.length) ++ waveBytes ++ fmtChunkBytes ++
  u32le 16 ++ u16le 1 ++ u16le numChannels ++ u32le sampleRate ++
  u32le (sampleRate * numChannels * 2) ++ u16le (numChannels * 2) ++
  u16le 16 ++ dataChunkBytes ++ u32le pcm.length ++ pcm.map (· % 256)

/-- Read one byte of an encoded file (out-of-range reads yield 0). -/
def byteAt (wav : List Nat) (i : Nat) : Nat := wav.getD i 0

/-- Re-parse a little-endian 16-bit field at the given offset. -/
def readU16 (wav : List Nat) (off : Nat) : Nat :=
  byteAt wav off + 256 * byteAt wav (off + 1)

/-- Re-parse a little-endian 32-bit field at the given offset. -/
def readU32 (wav : List Nat) (off : Nat) : Nat :=
  byteAt wav off + 256 * byteAt wav (off + 1) +
  65536 * byteAt wav (off + 2) + 16777216 * byteAt wav (off + 3)

/-- The chat session state held by the gemini service module: the system
instruction baked at creation plus the history given to ai.chats.create. -/
structure ChatSession where
  systemInstruction : String
  history : List (Role × String)
deriving DecidableEq

/-- The system-instruction template of initializeChat (geminiService.ts),
with the TS template literal rendered as a single line (leading indentation
and newlines of the literal are not load-bearing for any claim). -/
def tutorSystemInstruction (subject pillar path : String)
    (curriculum : Curriculum) : String :=
  "You are an expert, friendly, and adaptive AI Tutor. " ++
  "You are currently teaching a student about \"" ++ subject ++ "\". " ++
  "The specific pillar is \"" ++ pillar ++ "\". " ++
  "The current lesson path is \"" ++ path ++ "\". " ++
  "The curriculum context is: Objectives: " ++
  String.intercalate ", " curriculum.objectives ++
  " Concepts: " ++ String.intercalate ", " curriculum.keyConcepts

/-- The history formatting of initializeChat: drop transient (isThinking)
messages and the synthetic welcome message, keep role and text. -/
def formatHistoryForSDK (previousHistory : List ChatMessage) :
    List (Role × String) :=
  (previousHistory.filter (fun m => !m.isThinking && m.id != "welcome")).map
    (fun m => (m.role, m.text))

/-- initializeChat (geminiService.ts).  previousHistory defaults to [] as in
the TS signature; ai.chats.create receives the filtered history (an empty
filtered list is passed as undefined, which is the same as no history). -/
def initializeChat (subject pillar path : String) (curriculum : Curriculum)
    (previousHistory : List ChatMessage := []) : ChatSession :=
  { systemInstruction := tutorSystemInstruction subject pillar path curriculum
  , history := formatHistoryForSDK previousHistory }

/-- sendMessageToTutor (geminiService.ts).  session is the module-level
chatSession variable; modelReply is the outcome of chatSession.sendMessage.
With no session the function throws before any model call; with a session a
model failure is swallowed and the fixed fallback string returned. -/
def sendMessageToTutor (session : Option ChatSession)
    (modelReply : Except String String) : Except String String :=
  match session with
  | none => .error "Chat session not initialized"
  | some _ =>
    match modelReply with
    | .error _ => .ok "I'm having trouble connecting right now. Please try again."
    | .ok t => .ok t

/-- The list update inside toggleSubLesson (App.tsx): remove the index when
present (filter keeps elements different from it), append it when absent. -/
def toggleList (l : List Nat) (i : Nat) : List Nat :=
  if l.contains i then l.filter (fun j => j != i) else l ++ [i]

/-- toggleSubLesson (App.tsx). -/
def toggleSubLesson (prev : AppState) (i : Nat) : AppState :=
  { prev with completedSubLessons := toggleList prev.completedSubLessons i }

/-- The JS object update subLessonFeedback: { ...prev, [index]: type }.
On an association list with unique keys: replace the binding when the key is
present, append it otherwise. -/
def setFeedback (m : List (Nat × Feedback)) (i : Nat) (v : Feedback) :
    List (Nat × Feedback) :=
  if m.any (fun p => p.1 == i) then
    m.map (fun p => if p.1 == i then (i, v) else p)
  else
    m ++ [(i, v)]

/-- Lookup of a feedback entry by sub-lesson index. -/
def lookupFeedback (m : List (Nat × Feedback)) (i : Nat) : Option Feedback :=
  (m.find? (fun p => p.1 == i)).map (fun p => p.2)

/-- handleSubLessonFeedback (App.tsx). -/
def handleSubLessonFeedback (prev : AppState) (i : Nat) (v : Feedback) :
    AppState :=
  { prev with subLessonFeedback := setFeedback prev.subLessonFeedback i v }

/-- The synthetic welcome-back message shown on resume (App.tsx
handleResumeCourse), id 'resume'. -/
def resumeMessage (course : SavedCourse) (now : Nat) : ChatMessage :=
  { id := "resume"
  , role := .model
  , text := "Welcome back to **" ++ course.path.title ++
      "**! Ready to continue learning?"
  , timestamp := now }

/-- handleResumeCourse (App.tsx): the setState updater plus the
initializeChat call it makes.  initializeChat is called without a
previousHistory argument, so the TS default [] applies. -/
def handleResumeCourse (prev : AppState) (course : SavedCourse) (now : Nat) :
    AppState × ChatSession :=
  ({ prev with
      step := .CURRICULUM
    , activeCourseId := some course.id
    , subject := course.subject
    , selectedPillar := some course.pillar
    , selectedPath := some course.path
    , curriculum := some course.curriculum
    , completedSubLessons := course.completedSubLessons
    , subLessonFeedback := course.subLessonFeedback
    , chatHistory := [resumeMessage course now] },
   initializeChat course.subject course.pillar.title course.path.title
     course.curriculum)

/-- The synthetic welcome message created on path selection (App.tsx
handlePathSelect), id 'welcome'. -/
def welcomeMessage (path : LessonPath) (curriculum : Curriculum) (now : Nat) :
    ChatMessage :=
  { id := "welcome"
  , role := .model
  , text := "Hi! I'm your tutor for **" ++ path.title ++ "**. We'll cover " ++
      toString curriculum.objectives.length ++
      " main objectives today. Ask me anything as you go through the material!"
  , timestamp := now }

/-- handlePathSelect (App.tsx), success path: the composition of the initial
setState (isLoading, selectedPath, error cleared) with the post-await update.
curriculum is the result of generateCurriculum; newCourseId is the
Date.now().toString() id; now is Date.now().  When no pillar is selected the
thrown error lands in the catch branch, which only records the message. -/
def handlePathSelect (prev : AppState) (path : LessonPath)
    (curriculum : Curriculum) (newCourseId : String) (now : Nat) : AppState :=
  match prev.selectedPillar with
  | none =>
      { prev with
          isLoading := false
        , selectedPath := some path
        , error := some "Pillar not selected" }
  | some pillar =>
      let newCourse : SavedCourse :=
        { id := newCourseId
        , subject := prev.subject
        , pillar := pillar
        , path := path
        , curriculum := curriculum
        , completedSubLessons := []
        , subLessonFeedback := []
        , createdAt := now
        , lastAccessed := now }
      { prev with
          isLoading := false
        , selectedPath := some path
        , error := none
        , curriculum := some curriculum
        , completedSubLessons := []
        , subLessonFeedback := []
        , step := .CURRICULUM
        , activeCourseId := some newCourseId
        , library := newCourse :: prev.library
        , chatHistory := [welcomeMessage path curriculum now] }

/-- The shallow change detector of the progress-sync effect (App.tsx):
lengths of the completed list and feedback map differ, or audio was just
populated locally while the stored course has none. -/
def hasChanges (s : AppState) (c : SavedCourse) : Bool :=
  (c.completedSubLessons.length != s.completedSubLessons.length) ||
  (c.subLessonFeedback.length != s.subLessonFeedback.length) ||
  ((match s.curriculum with
    | some cur => cur.audioData.isSome
    | none => false) && c.curriculum.audioData.isNone)

/-- The updated SavedCourse written by the progress-sync effect. -/
def updatedCourse (s : AppState) (now : Nat) (c : SavedCourse) : SavedCourse :=
  { c with
      completedSubLessons := s.completedSubLessons
    , subLessonFeedback := s.subLessonFeedback
    , curriculum := (match s.curriculum with
        | some cur => cur
        | none => c.curriculum)
    , lastAccessed := now }

/-- The progress-sync effect (App.tsx): when an active course exists in the
library and the change detector fires, replace that library entry with the
updated course (the Firestore write it also fires is outside this model). -/
def syncProgress (s : AppState) (now : Nat) : AppState :=
  match s.activeCourseId with
  | none => s
  | some cid =>
    if s.library.length > 0 then
      match s.library.findIdx? (fun c => c.id == cid) with
      | none => s
      | some idx =>
        match s.library.get? idx with
        | none => s
        | some activeCourse =>
          if hasChanges s activeCourse then
            { s with library := s.library.set idx (updatedCourse s now activeCourse) }
          else s
    else s

/-- The comparator of the library sort (App.tsx auth effect):
(a, b) => b.lastAccessed - a.lastAccessed, i.e. a may precede b exactly when
a.lastAccessed is at least b.lastAccessed (descending order). -/
def byLastAccessedDesc (a b : SavedCourse) : Bool :=
  Nat.ble b.lastAccessed a.lastAccessed

/-- The onAuthStateChanged effect for a detected user (App.tsx): first
setState records the user; then the course fetch either succeeds (library
sorted descending by lastAccessed, AUTH advances to DASHBOARD) or fails
(caught, only logged: no further state change).  A missing db handle takes
the same no-op path as a failure (early return inside the try). -/
def authEffect (prev : AppState) (u : User)
    (fetch : Except Unit (List SavedCourse)) : AppState :=
  let s1 := { prev with user := some u }
  match fetch with
  | .error _ => s1
  | .ok courses =>
      { s1 with
          library := courses.mergeSort byLastAccessedDesc
        , step := if s1.step = .AUTH then .DASHBOARD else s1.step }

/-- The sanitized snapshot written to localStorage on every state change
(App.tsx): thinking messages dropped, isLoading forced false, error cleared. -/
def sanitizeForStorage (s : AppState) : AppState :=
  { s with
      chatHistory := s.chatHistory.filter (fun m => !m.isThinking)
    , isLoading := false
    , error := none }

/-- A parsed localStorage snapshot: JSON.parse yields an object whose fields
may individually be absent (e.g. after a schema change), modelled as Options. -/
structure PartialAppState where
  step : Option AppStep := none
  user : Option (Option User) := none
  library : Option (List SavedCourse) := none
  activeCourseId : Option (Option String) := none
  subject : Option String := none
  selectedPillar : Option (Option LearningPillar) := none
  selectedPath : Option (Option LessonPath) := none
  curriculum : Option (Option Curriculum) := none
  completedSubLessons : Option (List Nat) := none
  subLessonFeedback : Option (List (Nat × Feedback)) := none
  pillars : Option (List LearningPillar) := none
  paths : Option (List LessonPath) := none
  chatHistory : Option (List ChatMessage) := none
  isLoading : Option Bool := none
  error : Option (Option String) := none
deriving DecidableEq

/-- Serialization of a full AppState: every field present in the JSON. -/
def toPartial (s : AppState) : PartialAppState :=
  { step := some s.step
  , user := some s.user
  , library := some s.library
  , activeCourseId := some s.activeCourseId
  , subject := some s.subject
  , selectedPillar := some s.selectedPillar
  , selectedPath := some s.selectedPath
  , curriculum := some s.curriculum
  , completedSubLessons := some s.completedSubLessons
  , subLessonFeedback := some s.subLessonFeedback
  , pillars := some s.pillars
  , paths := some s.paths
  , chatHistory := some s.chatHistory
  , isLoading := some s.isLoading
  , error := some s.error }

/-- The startup restore (App.tsx useState lazy initializer):
{ ...INITIAL_STATE, ...parsed } — every field present in the snapshot
overrides the default, absent fields keep their defaults. -/
def mergeOverDefaults (p : PartialAppState) : AppState :=
  { step := p.step.getD INITIAL_STATE.step
  , user := p.user.getD INITIAL_STATE.user
  , library := p.library.getD INITIAL_STATE.library
  , activeCourseId := p.activeCourseId.getD INITIAL_STATE.activeCourseId
  , subject := p.subject.getD INITIAL_STATE.subject
  , selectedPillar := p.selectedPillar.getD INITIAL_STATE.selectedPillar
  , selectedPath := p.selectedPath.getD INITIAL_STATE.selectedPath
  , curriculum := p.curriculum.getD INITIAL_STATE.curriculum
  , completedSubLessons := p.completedSubLessons.getD INITIAL_STATE.completedSubLessons
  , subLessonFeedback := p.subLessonFeedback.getD INITIAL_STATE.subLessonFeedback
  , pillars := p.pillars.getD INITIAL_STATE.pillars
  , paths := p.paths.getD INITIAL_STATE.paths
  , chatHistory := p.chatHistory.getD INITIAL_STATE.chatHistory
  , isLoading := p.isLoading.getD INITIAL_STATE.isLoading
  , error := p.error.getD INITIAL_STATE.error }

/-- The states reachable through the progress-writing operations the spec
names: toggling a sub-lesson, recording feedback, selecting a path
(which resets progress and creates a fresh course), resuming a stored
course, and the progress-sync effect. -/
inductive Reachable : AppState → Prop where
  | init : Reachable INITIAL_STATE
  | toggle (s : AppState) (i : Nat) :
      Reachable s → Reachable (toggleSubLesson s i)
  | feedback (s : AppState) (i : Nat) (v : Feedback) :
      Reachable s → Reachable (handleSubLessonFeedback s i v)
  | pathSelect (s : AppState) (path : LessonPath) (curriculum : Curriculum)
      (newCourseId : String) (now : Nat) :
      Reachable s → Reachable (handlePathSelect s path curriculum newCourseId now)
  | resume (s : AppState) (course : SavedCourse) (now : Nat) :
      course ∈ s.library → Reachable s →
      Reachable (handleResumeCourse s course now).1
  | sync (s : AppState) (now : Nat) :
      Reachable s → Reachable (syncProgress s now)

/-- toggleList on a present index filters it out. -/
theorem toggleList_of_mem (l : List Nat) (i : Nat) (h : i ∈ l) :
    toggleList l i = l.filter (fun k => k != i) := by
  simp [toggleList, List.contains, List.elem_iff, h]

/-- toggleList on an absent index appends it. -/
theorem toggleList_of_not_mem (l : List Nat) (i : Nat) (h : i ∉ l) :
    toggleList l i = l ++ [i] := by
  simp [toggleList, List.contains, List.elem_iff, h]

/-- Claim C6: toggling the same sub-lesson index twice restores the original
membership of completedSubLessons (same set of indices), and a single toggle
removes the index when present and adds it when absent. -/
theorem toggleSubLesson_parity (s : AppState) (i j : Nat) :
    (j ∈ (toggleSubLesson (toggleSubLesson s i) i).completedSubLessons ↔
       j ∈ s.completedSubLessons) ∧
    (i ∈ (toggleSubLesson s i).completedSubLessons ↔
       i ∉ s.completedSubLessons) := by
  simp only [toggleSubLesson]
  constructor
  · by_cases h : i ∈ s.completedSubLessons
    · rw [toggleList_of_mem _ _ h]
      have h2 : i ∉ s.completedSubLessons.filter (fun k => k != i) := by
        simp [List.mem_filter]
      rw [toggleList_of_not_mem _ _ h2]
      by_cases hj : j = i
      · simp [List.mem_filter, hj, h]
      · simp [List.mem_filter, List.mem_append, hj]
    · rw [toggleList_of_not_mem _ _ h]
      have h2 : i ∈ s.completedSubLessons ++ [i] := by simp
      rw [toggleList_of_mem _ _ h2]
      by_cases hj : j = i
      · simp [List.mem_filter, hj, h]
      · simp [List.mem_filter, List.mem_append, hj]
  · by_cases h : i ∈ s.completedSubLessons
    · rw [toggleList_of_mem _ _ h]
      simp [List.mem_filter, h]
    · rw [toggleList_of_not_mem _ _ h]
      simp [h]

/-- The sequence of ids 1, 2, ..., n that the spec says generatePillars
assigns in list order. -/
def sequentialIds (n : Nat) : List Int :=
  (List.range n).map (fun k => Int.ofNat k + 1)

/-- The ids produced by assignPillarIds depend only on positions: starting
the enumeration at n yields ids n+1, n+2, ... . -/
theorem enumFrom_map_id_eq (n : Nat) (data : List RawPillar) :
    (data.enumFrom n).map (fun p => Int.ofNat p.1 + 1) =
      (List.range' n data.length).map (fun k => Int.ofNat k + 1) := by
  induction data generalizing n with
  | nil => rfl
  | cons r rs ih =>
      simp only [List.enumFrom_cons, List.map_cons, List.range']
      exact congrArg _ (ih (n + 1))

/-- The icon of each produced pillar is copied from the response item at the
same position, whatever the enumeration start. -/
theorem enumFrom_map_icon_eq (n : Nat) (data : List RawPillar) :
    (data.enumFrom n).map (fun p => p.2.icon) = data.map (fun r => r.icon) := by
  induction data generalizing n with
  | nil => rfl
  | cons r rs ih =>
      simp only [List.enumFrom_cons, List.map_cons]
      exact congrArg _ (ih (n + 1))

/-- Claim C1 (amended): the success path of generatePillars returns one
pillar per parsed response item, ids reassigned sequentially 1..N in list
order regardless of the ids in the model output, and all other fields
(including icon) copied from the response without client-side validation. -/
theorem generatePillars_id_reassignment (subject : String)
    (data : List RawPillar) :
    generatePillars subject (.ok data) = .ok (assignPillarIds data) ∧
    (assignPillarIds data).length = data.length ∧
    (assignPillarIds data).map (fun p => p.id) = sequentialIds data.length ∧
    (assignPillarIds data).map (fun p => p.icon) =
      data.map (fun r => r.icon) := by
  refine ⟨rfl, ?_, ?_, ?_⟩
  · simp [assignPillarIds]
  · have h1 : (assignPillarIds data).map (fun p => p.id) =
        (data.enumFrom 0).map (fun p => Int.ofNat p.1 + 1) := by
      simp only [assignPillarIds, List.enum, List.map_map]
      rfl
    rw [h1, enumFrom_map_id_eq, sequentialIds, List.range_eq_range']
  · have h1 : (assignPillarIds data).map (fun p => p.icon) =
        (data.enumFrom 0).map (fun p => p.2.icon) := by
      simp only [assignPillarIds, List.enum, List.map_map]
      rfl
    rw [h1, enumFrom_map_icon_eq]

/-- Claim C1 counterexample: with a non-empty subject but a model response of
a single item carrying a messy id and an icon outside the 15-tag set, the
client returns one entry (not 30) whose icon is not in the tag set; the code
enforces neither the count nor the icon enum, only the id reassignment. -/
theorem generatePillars_count_counterexample :
    generatePillars "Quantum Physics"
        (.ok [{ id := 99, title := "T", description := "D", icon := "zebra" }]) =
      .ok [{ id := 1, title := "T", description := "D", icon := "zebra" }] ∧
    ([({ id := 1, title := "T", description := "D", icon := "zebra" } :
        LearningPillar)].length = 30 → False) ∧
    iconTags.contains "zebra" = false := by
  refine ⟨rfl, ?_, by decide⟩
  intro h
  simp at h

/-- Claim C4 (amended): the three JSON generation operations wrap any
transport/parse failure as a fixed user-facing error of the form
"Failed to generate ..."; generateModuleAudio instead re-raises the original
error unchanged, and raises "No audio data generated." when the audio field
is missing; in every case a failure yields an error value and never a
partial result. -/
theorem gatewayFailurePolicy (subject pillar path e : String) :
    generatePillars subject (.error e) =
      .error "Failed to generate learning pillars. Please try again." ∧
    generateLessonPaths subject pillar (.error e) =
      .error "Failed to generate lesson paths." ∧
    generateCurriculum subject pillar path (.error e) =
      .error "Failed to generate curriculum." ∧
    failedToGenerateForm "Failed to generate learning pillars. Please try again." = true ∧
    failedToGenerateForm "Failed to generate lesson paths." = true ∧
    failedToGenerateForm "Failed to generate curriculum." = true :=
  ⟨rfl, rfl, rfl, by decide, by decide, by decide⟩

/-- Claim C4 counterexample: a transport failure of generateModuleAudio is
re-raised with its original message, which does not have the
"Failed to generate ..." form; the missing-field error message does not have
that form either. -/
theorem generateModuleAudio_error_counterexample :
    generateModuleAudio (.error "network unreachable") =
      .error "network unreachable" ∧
    failedToGenerateForm "network unreachable" = false ∧
    generateModuleAudio (.ok none) = .error "No audio data generated." ∧
    failedToGenerateForm "No audio data generated." = false :=
  ⟨rfl, by decide, rfl, by decide⟩

/-- Claim C9 (amended): once a chat session is initialized,
sendMessageToTutor never throws — a model failure is replaced by the fixed
fallback string and a model reply is returned as-is; with no initialized
session the function throws "Chat session not initialized". -/
theorem sendMessageToTutor_spec (sess : ChatSession) (e t : String) :
    sendMessageToTutor (some sess) (.error e) =
      .ok "I'm having trouble connecting right now. Please try again." ∧
    sendMessageToTutor (some sess) (.ok t) = .ok t ∧
    sendMessageToTutor none (.ok t) = .error "Chat session not initialized" :=
  ⟨rfl, rfl, rfl⟩

/-- Claim C9 counterexample: when no chat session has been initialized,
sendMessageToTutor throws instead of returning the fallback string. -/
theorem sendMessageToTutor_throws_counterexample :
    sendMessageToTutor none (.ok "hello") =
      .error "Chat session not initialized" := rfl

/-- Claim C3 (amended): resuming a saved course jumps straight to CURRICULUM,
copies the stored progress and course fields verbatim into the active
session (no merge with prior session state), sets the active course id,
replaces the visible chat with the single synthetic welcome-back message, and
re-initializes the tutor chat session with the defaulted empty previous
history, so the underlying chat context contains no prior turns. -/
theorem handleResumeCourse_spec (prev : AppState) (course : SavedCourse)
    (now : Nat) :
    (handleResumeCourse prev course now).1.step = AppStep.CURRICULUM ∧
    (handleResumeCourse prev course now).1.completedSubLessons =
      course.completedSubLessons ∧
    (handleResumeCourse prev course now).1.subLessonFeedback =
      course.subLessonFeedback ∧
    (handleResumeCourse prev course now).1.subject = course.subject ∧
    (handleResumeCourse prev course now).1.selectedPillar =
      some course.pillar ∧
    (handleResumeCourse prev course now).1.selectedPath = some course.path ∧
    (handleResumeCourse prev course now).1.curriculum =
      some course.curriculum ∧
    (handleResumeCourse prev course now).1.activeCourseId = some course.id ∧
    (handleResumeCourse prev course now).1.chatHistory =
      [resumeMessage course now] ∧
    (handleResumeCourse prev course now).2 =
      initializeChat course.subject course.pillar.title course.path.title
        course.curriculum ∧
    (handleResumeCourse prev course now).2.history = [] :=
  ⟨rfl, rfl, rfl, rfl, rfl, rfl, rfl, rfl, rfl, rfl, rfl⟩

/-- A minimal concrete curriculum for counterexample states. -/
def sampleCurriculum : Curriculum :=
  { pathTitle := "P"
  , introduction := "I"
  , objectives := ["o1"]
  , keyConcepts := ["k1"]
  , realWorldUseCases := []
  , caseStudy := { title := "t", scenario := "s", outcome := "o" }
  , subLessons := []
  , resources := [] }

/-- A concrete pillar for counterexample states. -/
def samplePillar : LearningPillar :=
  { id := 1, title := "Pillar", description := "d", icon := "tech" }

/-- A concrete path for counterexample states. -/
def samplePath : LessonPath :=
  { id := 1, title := "Path", description := "d"
  , difficulty := .Beginner, estimatedTime := "1h" }

/-- A concrete saved course for counterexample states. -/
def sampleCourse : SavedCourse :=
  { id := "100"
  , subject := "Subj"
  , pillar := samplePillar
  , path := samplePath
  , curriculum := sampleCurriculum
  , completedSubLessons := []
  , subLessonFeedback := []
  , createdAt := 0
  , lastAccessed := 0 }

/-- A state holding one prior non-transient chat turn. -/
def priorChatState : AppState :=
  { INITIAL_STATE with
      chatHistory :=
        [{ id := "m1", role := .user, text := "What is recursion?"
         , timestamp := 5 }] }

/-- Claim C3 counterexample: with a prior non-transient chat turn in the
session, resuming re-initializes the tutor chat session with an empty
history (the previousHistory argument is not passed at the call site), so
the underlying chat context does not include the prior turn even though
filtering the prior transcript would have kept it. -/
theorem handleResumeCourse_history_counterexample :
    (handleResumeCourse priorChatState sampleCourse 7).2.history = [] ∧
    formatHistoryForSDK priorChatState.chatHistory =
      [(Role.user, "What is recursion?")] :=
  ⟨rfl, rfl⟩

/-- Claim C5 (amended): with an authenticated user detected, a successful
course fetch installs the library sorted descending by lastAccessed and
advances AUTH to DASHBOARD (a non-AUTH step is kept); a failed fetch is only
logged and leaves the state unchanged apart from the user having been set —
in particular the step remains AUTH and the library keeps its prior (empty)
value, so a fetch failure does block reaching DASHBOARD. -/
theorem authEffect_spec (prev : AppState) (u : User)
    (courses : List SavedCourse) :
    authEffect prev u (.error ()) = { prev with user := some u } ∧
    (authEffect prev u (.ok courses)).library.Pairwise
      (fun a b => b.lastAccessed ≤ a.lastAccessed) ∧
    (authEffect prev u (.ok courses)).step =
      (if prev.step = AppStep.AUTH then AppStep.DASHBOARD else prev.step) ∧
    (authEffect prev u (.ok courses)).library.Perm courses ∧
    (authEffect prev u (.ok courses)).user = some u := by
  refine ⟨rfl, ?_, rfl, ?_, rfl⟩
  · have h := @List.sorted_mergeSort SavedCourse byLastAccessedDesc
      (fun a b c hab hbc => by
        simp only [byLastAccessedDesc, Nat.ble_eq] at hab hbc ⊢
        exact Nat.le_trans hbc hab)
      (fun a b => by
        simp only [byLastAccessedDesc, Bool.or_eq_true, Nat.ble_eq]
        exact Nat.le_total b.lastAccessed a.lastAccessed)
      courses
    exact h.imp (fun hab => by
      simpa [byLastAccessedDesc, Nat.ble_eq] using hab)
  · exact List.mergeSort_perm courses byLastAccessedDesc

/-- Claim C5 counterexample: starting from the initial state (step AUTH), a
failed library fetch leaves the step at AUTH — the AUTH to DASHBOARD
transition does not occur, contrary to the claim that a library-load failure
does not block reaching DASHBOARD. -/
theorem authEffect_failure_counterexample :
    (authEffect INITIAL_STATE
        { id := "u1", name := "Learner", joinedAt := 0 } (.error ())).step =
      AppStep.AUTH ∧
    AppStep.AUTH ≠ AppStep.DASHBOARD :=
  ⟨rfl, by decide⟩

/-- Replacing the binding of key i rewrites what find? locates at key i. -/
theorem find?_replace_self (m : List (Nat × Feedback)) (i : Nat)
    (v : Feedback) :
    (m.map (fun p => if p.1 == i then (i, v) else p)).find?
        (fun p => p.1 == i) =
      (m.find? (fun p => p.1 == i)).map (fun _ => (i, v)) := by
  induction m with
  | nil => rfl
  | cons p ps ih =>
      rw [List.map_cons]
      by_cases h : p.1 = i
      · have hrep : (if (p.1 == i) = true then ((i, v) : Nat × Feedback)
            else p) = (i, v) := by simp [h]
        have hb1 : ((i : Nat) == i) = true := by simp
        have hb2 : (p.1 == i) = true := by simp [h]
        rw [hrep, List.find?_cons, List.find?_cons, hb1, hb2]
        rfl
      · have hrep : (if (p.1 == i) = true then ((i, v) : Nat × Feedback)
            else p) = p := by simp [h]
        have hb2 : (p.1 == i) = false := by simp [h]
        rw [hrep, List.find?_cons, List.find?_cons, hb2]
        exact ih

/-- Replacing the binding of key i leaves find? at any other key j unchanged. -/
theorem find?_replace_other (m : List (Nat × Feedback)) (i j : Nat)
    (v : Feedback) (hji : j ≠ i) :
    (m.map (fun p => if p.1 == i then (i, v) else p)).find?
        (fun p => p.1 == j) =
      m.find? (fun p => p.1 == j) := by
  have hij : ((i : Nat) == j) = false := by
    simpa using Ne.symm hji
  induction m with
  | nil => rfl
  | cons p ps ih =>
      rw [List.map_cons]
      by_cases h : p.1 = i
      · have hrep : (if (p.1 == i) = true then ((i, v) : Nat × Feedback)
            else p) = (i, v) := by simp [h]
        have hpj : (p.1 == j) = false := by rw [h]; exact hij
        rw [hrep, List.find?_cons, List.find?_cons, hij, hpj]
        exact ih
      · have hrep : (if (p.1 == i) = true then ((i, v) : Nat × Feedback)
            else p) = p := by simp [h]
        rw [hrep, List.find?_cons, List.find?_cons]
        by_cases hj : p.1 = j
        · have hb : (p.1 == j) = true := by simp [hj]
          rw [hb]
        · have hb : (p.1 == j) = false := by simp [hj]
          rw [hb]
          exact ih

/-- Replacing the binding of key i does not change how many bindings carry
key i. -/
theorem countP_replace (m : List (Nat × Feedback)) (i : Nat) (v : Feedback) :
    (m.map (fun p => if p.1 == i then (i, v) else p)).countP
        (fun p => p.1 == i) =
      m.countP (fun p => p.1 == i) := by
  induction m with
  | nil => rfl
  | cons p ps ih =>
      rw [List.map_cons]
      by_cases h : p.1 = i
      · have hrep : (if (p.1 == i) = true then ((i, v) : Nat × Feedback)
            else p) = (i, v) := by simp [h]
        have hb1 : ((i : Nat) == i) = true := by simp
        have hb2 : (p.1 == i) = true := by simp [h]
        rw [hrep, List.countP_cons, List.countP_cons, hb1, hb2, ih]
      · have hrep : (if (p.1 == i) = true then ((i, v) : Nat × Feedback)
            else p) = p := by simp [h]
        have hb2 : (p.1 == i) = false := by simp [h]
        rw [hrep, List.countP_cons, List.countP_cons, hb2, ih]

/-- In a map with unique keys, a present key has exactly one binding. -/
theorem countP_key_eq_one (m : List (Nat × Feedback)) (i : Nat)
    (hnd : (m.map Prod.fst).Nodup)
    (hmem : m.any (fun p => p.1 == i) = true) :
    m.countP (fun p => p.1 == i) = 1 := by
  have hmem' : i ∈ m.map Prod.fst := by
    rw [List.any_eq_true] at hmem
    obtain ⟨p, hp, hpi⟩ := hmem
    exact List.mem_map.mpr ⟨p, hp, by simpa using hpi⟩
  have h1 : m.countP (fun p => p.1 == i) =
      (m.map Prod.fst).countP (fun k => k == i) := by
    rw [List.countP_map]; rfl
  rw [h1]
  have h2 : (m.map Prod.fst).countP (fun k => k == i) =
      (m.map Prod.fst).count i := rfl
  rw [h2]
  exact List.count_eq_one_of_mem hnd hmem'

/-- setFeedback preserves uniqueness of the keys. -/
theorem setFeedback_keys_nodup (m : List (Nat × Feedback)) (i : Nat)
    (v : Feedback) (hnd : (m.map Prod.fst).Nodup) :
    ((setFeedback m i v).map Prod.fst).Nodup := by
  unfold setFeedback
  split
  · next _ =>
      have heq : (m.map (fun p => if p.1 == i then (i, v) else p)).map
          Prod.fst = m.map Prod.fst := by
        rw [List.map_map]
        exact List.map_congr_left (fun p _ => by
          by_cases h : p.1 = i <;> simp [h])
      rw [heq]; exact hnd
  · next h =>
      have hni : i ∉ m.map Prod.fst := by
        intro hmem
        obtain ⟨p, hp, hpi⟩ := List.mem_map.mp hmem
        have : m.any (fun p => p.1 == i) = true :=
          List.any_eq_true.mpr ⟨p, hp, by simp [hpi]⟩
        simp [this] at h
      simp [List.nodup_append, hnd, hni]

/-- Looking up the key just written returns the written value. -/
theorem lookup_setFeedback_self (m : List (Nat × Feedback)) (i : Nat)
    (v : Feedback) :
    lookupFeedback (setFeedback m i v) i = some v := by
  unfold setFeedback lookupFeedback
  split
  · next h =>
      rw [find?_replace_self]
      have hsome : (m.find? (fun p => p.1 == i)).isSome := by
        rw [List.find?_isSome]
        exact List.any_eq_true.mp h
      obtain ⟨p, hp⟩ := Option.isSome_iff_exists.mp hsome
      rw [hp]; rfl
  · next h =>
      have h0 : m.find? (fun p => p.1 == i) = none := by
        rw [List.find?_eq_none]
        intro p hp hpi
        exact absurd (List.any_eq_true.mpr ⟨p, hp, hpi⟩) h
      rw [List.find?_append, h0]
      simp

/-- Looking up a different key is unaffected by the write. -/
theorem lookup_setFeedback_other (m : List (Nat × Feedback)) (i j : Nat)
    (v : Feedback) (hji : j ≠ i) :
    lookupFeedback (setFeedback m i v) j = lookupFeedback m j := by
  unfold setFeedback lookupFeedback
  split
  · next _ => rw [find?_replace_other m i j v hji]
  · next _ =>
      rw [List.find?_append]
      have hij : ((i : Nat) == j) = false := by simpa using Ne.symm hji
      have h1 : ([((i : Nat), v)].find? (fun p => p.1 == j)) = none := by
        simp [hij]
      rw [h1]
      cases m.find? (fun p => p.1 == j) <;> rfl

/-- After a write to key i on a unique-key map, key i has exactly one
binding. -/
theorem countP_setFeedback (m : List (Nat × Feedback)) (i : Nat)
    (v : Feedback) (hnd : (m.map Prod.fst).Nodup) :
    (setFeedback m i v).countP (fun p => p.1 == i) = 1 := by
  unfold setFeedback
  split
  · next h => rw [countP_replace]; exact countP_key_eq_one m i hnd h
  · next h =>
      have h0 : m.countP (fun p => p.1 == i) = 0 := by
        rw [List.countP_eq_zero]
        intro p hp hpi
        exact absurd (List.any_eq_true.mpr ⟨p, hp, hpi⟩) h
      simp [List.countP_append, h0]

/-- Claim C7: recording feedback 'helpful' then 'unhelpful' for the same
sub-lesson index leaves exactly one feedback binding for that index, holding
'unhelpful' (the later write overwrites the earlier one), while every other
index keeps its previous binding.  The unique-keys hypothesis is the
representation invariant of the JS Record the field models. -/
theorem handleSubLessonFeedback_overwrite (s : AppState) (i j : Nat)
    (hnd : (s.subLessonFeedback.map Prod.fst).Nodup) (hji : j ≠ i) :
    lookupFeedback
        ((handleSubLessonFeedback (handleSubLessonFeedback s i .helpful) i
            .unhelpful).subLessonFeedback) i = some .unhelpful ∧
    ((handleSubLessonFeedback (handleSubLessonFeedback s i .helpful) i
        .unhelpful).subLessonFeedback).countP (fun p => p.1 == i) = 1 ∧
    lookupFeedback
        ((handleSubLessonFeedback (handleSubLessonFeedback s i .helpful) i
            .unhelpful).subLessonFeedback) j =
      lookupFeedback s.subLessonFeedback j := by
  refine ⟨?_, ?_, ?_⟩
  · exact lookup_setFeedback_self _ i .unhelpful
  · exact countP_setFeedback _ i .unhelpful
      (setFeedback_keys_nodup s.subLessonFeedback i .helpful hnd)
  · have h1 := lookup_setFeedback_other
      (setFeedback s.subLessonFeedback i .helpful) i j .unhelpful hji
    have h2 := lookup_setFeedback_other s.subLessonFeedback i j .helpful hji
    exact h1.trans h2

/-- Claim C7 witness: concrete evaluation of the double write at index 0,
with index 1 untouched, starting from a one-binding map. -/
theorem handleSubLessonFeedback_overwrite_witness :
    lookupFeedback
        ((handleSubLessonFeedback
            (handleSubLessonFeedback
              { INITIAL_STATE with subLessonFeedback := [(1, .helpful)] } 0
              .helpful) 0
            .unhelpful).subLessonFeedback) 0 = some .unhelpful ∧
    ((handleSubLessonFeedback
        (handleSubLessonFeedback
          { INITIAL_STATE with subLessonFeedback := [(1, .helpful)] } 0
          .helpful) 0
        .unhelpful).subLessonFeedback).countP (fun p => p.1 == 0) = 1 ∧
    lookupFeedback
        ((handleSubLessonFeedback
            (handleSubLessonFeedback
              { INITIAL_STATE with subLessonFeedback := [(1, .helpful)] } 0
              .helpful) 0
            .unhelpful).subLessonFeedback) 1 =
      lookupFeedback
        ({ INITIAL_STATE with
            subLessonFeedback := [(1, .helpful)] } : AppState).subLessonFeedback
        1 :=
  handleSubLessonFeedback_overwrite
    { INITIAL_STATE with subLessonFeedback := [(1, .helpful)] } 0 1
    (by decide) (by decide)

/-- Claim C8: the snapshot written to local storage is the sanitized state —
no thinking messages, isLoading false, error cleared — and restoring it by
merging over the defaults reproduces the pre-reload state except for exactly
those three sanitizations. -/
theorem snapshot_restore_spec (s : AppState) :
    (sanitizeForStorage s).chatHistory.all (fun m => !m.isThinking) = true ∧
    (sanitizeForStorage s).isLoading = false ∧
    (sanitizeForStorage s).error = none ∧
    mergeOverDefaults (toPartial (sanitizeForStorage s)) =
      { s with
          chatHistory := s.chatHistory.filter (fun m => !m.isThinking)
        , isLoading := false
        , error := none } := by
  refine ⟨?_, rfl, rfl, rfl⟩
  rw [List.all_eq_true]
  intro m hm
  exact (List.mem_filter.mp hm).2

/-- Recomposing the four little-endian bytes of a 32-bit field recovers any
value that fits in 32 bits. -/
theorem u32_recompose (n : Nat) (h : n < 4294967296) :
    n % 256 + 256 * (n / 256 % 256) + 65536 * (n / 65536 % 256) +
      16777216 * (n / 16777216 % 256) = n := by
  omega

/-- Recomposing the two little-endian bytes of a 16-bit field recovers any
value that fits in 16 bits. -/
theorem u16_recompose (n : Nat) (h : n < 65536) :
    n % 256 + 256 * (n / 256 % 256) = n := by
  omega

/-- The byte-level normal form of pcmToWav: the 44 header bytes as a cons
chain followed by the truncated sample bytes. -/
theorem pcmToWav_eq (pcm : List Nat) (sr ch : Nat) :
    pcmToWav pcm sr ch =
      82 :: 73 :: 70 :: 70 ::
      (36 + pcm.length) % 256 :: ((36 + pcm.length) / 256 % 256) ::
      ((36 + pcm.length) / 65536 % 256) ::
      ((36 + pcm.length) / 16777216 % 256) ::
      87 :: 65 :: 86 :: 69 :: 102 :: 109 :: 116 :: 32 ::
      16 :: 0 :: 0 :: 0 ::
      1 :: 0 ::
      ch % 256 :: (ch / 256 % 256) ::
      sr % 256 :: (sr / 256 % 256) :: (sr / 65536 % 256) ::
      (sr / 16777216 % 256) ::
      (sr * ch * 2) % 256 :: ((sr * ch * 2) / 256 % 256) ::
      ((sr * ch * 2) / 65536 % 256) :: ((sr * ch * 2) / 16777216 % 256) ::
      (ch * 2) % 256 :: ((ch * 2) / 256 % 256) ::
      16 :: 0 ::
      100 :: 97 :: 116 :: 97 ::
      pcm.length % 256 :: (pcm.length / 256 % 256) ::
      (pcm.length / 65536 % 256) :: (pcm.length / 16777216 % 256) ::
      pcm.map (fun b => b % 256) := by
  simp [pcmToWav, riffBytes, waveBytes, fmtChunkBytes, dataChunkBytes,
    u32le, u16le]

/-- Claim C2: for an input decoding to N raw PCM bytes, pcmToWav yields
44 + N bytes; re-parsing the header recovers RIFF chunk size 36 + N, data
chunk size N, format tag 1 (uncompressed PCM), the channel count, sample
rate, byte rate sampleRate*channels*2, block align channels*2, and 16 bits
per sample; the N sample bytes follow unchanged.  The bound hypotheses state
that each field fits its 16- or 32-bit slot and that the input really is
bytes (atob output is always in 0..255). -/
theorem pcmToWav_spec (pcm : List Nat) (sr ch : Nat)
    (hlen : 36 + pcm.length < 4294967296)
    (hsr : sr < 4294967296)
    (hbr : sr * ch * 2 < 4294967296)
    (hch : ch * 2 < 65536)
    (hbytes : ∀ b ∈ pcm, b < 256) :
    (pcmToWav pcm sr ch).length = 44 + pcm.length ∧
    readU32 (pcmToWav pcm sr ch) 4 = 36 + pcm.length ∧
    readU32 (pcmToWav pcm sr ch) 40 = pcm.length ∧
    readU16 (pcmToWav pcm sr ch) 20 = 1 ∧
    readU16 (pcmToWav pcm sr ch) 22 = ch ∧
    readU32 (pcmToWav pcm sr ch) 24 = sr ∧
    readU32 (pcmToWav pcm sr ch) 28 = sr * ch * 2 ∧
    readU16 (pcmToWav pcm sr ch) 32 = ch * 2 ∧
    readU16 (pcmToWav pcm sr ch) 34 = 16 ∧
    (pcmToWav pcm sr ch).drop 44 = pcm := by
  have hchlt : ch < 65536 := by omega
  have hlen' : pcm.length < 4294967296 := by omega
  rw [pcmToWav_eq]
  refine ⟨?_, ?_, ?_, ?_, ?_, ?_, ?_, ?_, ?_, ?_⟩
  · simp only [List.length_cons, List.length_map]
    omega
  · show (36 + pcm.length) % 256 +
        256 * ((36 + pcm.length) / 256 % 256) +
        65536 * ((36 + pcm.length) / 65536 % 256) +
        16777216 * ((36 + pcm.length) / 16777216 % 256) = 36 + pcm.length
    exact u32_recompose _ hlen
  · show pcm.length % 256 + 256 * (pcm.length / 256 % 256) +
        65536 * (pcm.length / 65536 % 256) +
        16777216 * (pcm.length / 16777216 % 256) = pcm.length
    exact u32_recompose _ hlen'
  · rfl
  · show ch % 256 + 256 * (ch / 256 % 256) = ch
    exact u16_recompose _ hchlt
  · show sr % 256 + 256 * (sr / 256 % 256) + 65536 * (sr / 65536 % 256) +
        16777216 * (sr / 16777216 % 256) = sr
    exact u32_recompose _ hsr
  · show (sr * ch * 2) % 256 + 256 * ((sr * ch * 2) / 256 % 256) +
        65536 * ((sr * ch * 2) / 65536 % 256) +
        16777216 * ((sr * ch * 2) / 16777216 % 256) = sr * ch * 2
    exact u32_recompose _ hbr
  · show (ch * 2) % 256 + 256 * ((ch * 2) / 256 % 256) = ch * 2
    exact u16_recompose _ hch
  · rfl
  · show pcm.map (fun b => b % 256) = pcm
    exact (List.map_congr_left
      (fun b hb => Nat.mod_eq_of_lt (hbytes b hb))).trans (List.map_id pcm)

/-- Claim C2 witness: the encoder evaluated on the concrete two-byte input
[7, 200] at the default 24 kHz mono parameters. -/
theorem pcmToWav_spec_witness :
    (pcmToWav [7, 200] 24000 1).length = 44 + ([7, 200] : List Nat).length ∧
    readU32 (pcmToWav [7, 200] 24000 1) 4 = 36 + ([7, 200] : List Nat).length ∧
    readU32 (pcmToWav [7, 200] 24000 1) 40 = ([7, 200] : List Nat).length ∧
    readU16 (pcmToWav [7, 200] 24000 1) 20 = 1 ∧
    readU16 (pcmToWav [7, 200] 24000 1) 22 = 1 ∧
    readU32 (pcmToWav [7, 200] 24000 1) 24 = 24000 ∧
    readU32 (pcmToWav [7, 200] 24000 1) 28 = 24000 * 1 * 2 ∧
    readU16 (pcmToWav [7, 200] 24000 1) 32 = 1 * 2 ∧
    readU16 (pcmToWav [7, 200] 24000 1) 34 = 16 ∧
    (pcmToWav [7, 200] 24000 1).drop 44 = [7, 200] :=
  pcmToWav_spec [7, 200] 24000 1 (by decide) (by decide) (by decide)
    (by decide) (by decide)

/-- Toggling preserves distinctness of the completed-sub-lesson list. -/
theorem toggleList_nodup (l : List Nat) (i : Nat) (h : l.Nodup) :
    (toggleList l i).Nodup := by
  by_cases hm : i ∈ l
  · rw [toggleList_of_mem _ _ hm]
    exact h.filter _
  · rw [toggleList_of_not_mem _ _ hm]
    simp [List.nodup_append, h, hm]

/-- The progress invariant: the active completed list and every stored
course's completed list are duplicate-free. -/
theorem reachable_invariant (s : AppState) (h : Reachable s) :
    s.completedSubLessons.Nodup ∧
      ∀ c ∈ s.library, c.completedSubLessons.Nodup := by
  induction h with
  | init =>
      refine ⟨List.nodup_nil, ?_⟩
      intro c hc
      simp [INITIAL_STATE] at hc
  | toggle s i _ ih => exact ⟨toggleList_nodup _ _ ih.1, ih.2⟩
  | feedback s i v _ ih => exact ih
  | pathSelect s path curriculum newCourseId now _ ih =>
      cases hsel : s.selectedPillar with
      | none =>
          simp only [handlePathSelect, hsel]
          exact ih
      | some pillar =>
          simp only [handlePathSelect, hsel]
          refine ⟨List.nodup_nil, ?_⟩
          intro c hc
          rcases List.mem_cons.mp hc with heq | hmem
          · rw [heq]
            exact List.nodup_nil
          · exact ih.2 c hmem
  | resume s course now hmem _ ih => exact ⟨ih.2 course hmem, ih.2⟩
  | sync s now _ ih =>
      cases hact : s.activeCourseId with
      | none =>
          simp only [syncProgress, hact]
          exact ih
      | some cid =>
          simp only [syncProgress, hact]
          split
          · split
            · exact ih
            · split
              · exact ih
              · split
                · refine ⟨ih.1, ?_⟩
                  intro c hc
                  rcases List.mem_or_eq_of_mem_set hc with hmem' | heq
                  · exact ih.2 c hmem'
                  · rw [heq]
                    exact ih.1
                · exact ih
          · exact ih

/-- Claim C10: completedSubLessons behaves as a set — along every state
reachable through the progress-writing operations (toggle, feedback, path
selection, resume, progress sync) it never contains an index twice. -/
theorem completedSubLessons_nodup (s : AppState) (h : Reachable s) :
    s.completedSubLessons.Nodup :=
  (reachable_invariant s h).1

/-- Claim C10 witness: a concrete reachable state obtained by toggling two
indices from the initial state has a duplicate-free completed list. -/
theorem completedSubLessons_nodup_witness :
    (toggleSubLesson (toggleSubLesson INITIAL_STATE 0) 1).completedSubLessons.Nodup :=
  completedSubLessons_nodup _
    (Reachable.toggle _ 1 (Reachable.toggle _ 0 Reachable.init))
